import Mathlib

/-!
Verification of the prediction shim in `src/predict.py` (lucataco/audiocraft).

The shim is a single `Predictor.predict` method around the external audiocraft
library. We shallowly embed its body: request parameters become a `Request`
record, the loaded reference clip becomes an `AudioClip`, the external
generation call is a parameter `genOne` (one waveform per description, the
library's contract), and the observable behaviour of a call — the returned
paths or the raised error, the files left in `/tmp/output`, and the trace of
library/filesystem actions — is computed by `predictBody`.

Python list slicing `l[a:b]` is `pySlice`.  The branch comparison
`continuation_start > continuation_end` is modelled over exact rationals,
which cannot diverge from binary64 at loadable clip sizes; the slice bound
`int(sr * continuation_end)` of the defaulted-end path, where binary64
rounding is observable (`int(16000 * (1001 / 16000)) = 1000`), is modelled
bit-exactly by the dyadic float model `F64` below.
-/

namespace Audiocraft

/-- A loaded reference clip, as returned by `torchaudio.load` after the
`[None]` unsqueeze at line 121: `samples` is the size of the last tensor
dimension's data (`input_audio.shape[2]` many samples), `sr` the sample rate. -/
structure AudioClip where
  samples : List ℚ
  sr : ℤ
deriving DecidableEq, Repr

/-- The request parameters of `Predictor.predict` (lines 35-113).  The
reference audio is modelled as the clip it loads to (`none` when the
`input_audio` path is absent). -/
structure Request where
  prompt : String
  input_audio : Option AudioClip
  duration : ℤ
  continuation : Bool
  continuation_start : ℤ
  continuation_end : Option ℤ
  model : String
  variations : ℤ
  span_score : String
  temperature : ℚ
  top_p : ℚ
  max_cfg : ℚ
  min_cfg : ℚ
  decoding_steps_stage_1 : ℤ
  decoding_steps_stage_2 : ℤ
  decoding_steps_stage_3 : ℤ
  decoding_steps_stage_4 : ℤ
deriving DecidableEq, Repr

/-- The arguments passed to `self.model.set_generation_params`
(lines 137-143 and 153-159). -/
structure GenParams where
  duration : ℤ
  temperature : ℚ
  top_p : ℚ
  max_cfg_coef : ℚ
  min_cfg_coef : ℚ
  decoding_steps : List ℤ
  span_arrangement : String
deriving DecidableEq, Repr

/-- Python list slicing `l[a:b]` with integer bounds. -/
def pySlice {α : Type} (l : List α) (a b : ℤ) : List α :=
  let n : ℤ := l.length
  let a' : ℤ := if a < 0 then max (n + a) 0 else min a n
  let b' : ℤ := if b < 0 then max (n + b) 0 else min b n
  (l.drop a'.toNat).take (b' - a').toNat

/-- Exceptions `predict` can raise: the explicit `ValueError` of line 128 and
the `AttributeError` Python raises at line 144 when looking up
`generate_continuation` on the string `model`. -/
inductive PredictError where
  | valueError (msg : String)
  | attributeError (msg : String)
deriving DecidableEq, Repr

/-- Observable actions of a `predict` call, in order: library calls and
filesystem effects. -/
inductive Event where
  | getPretrained (name : String)
  | setGenerationParams (p : GenParams)
  | generate (descriptions : List String)
  | rmOutputDir
  | audioWrite (path : String) (wav : List ℚ)
deriving DecidableEq, Repr

/-- Process-lifetime state: which checkpoint `self.model` currently holds. -/
structure PState where
  loadedModel : String
deriving DecidableEq, Repr

/-- Contents of the `/tmp/output` directory: file path with its written
waveform. -/
abbrev FS : Type := List (String × List ℚ)

/-- Everything observable about one `predict` call: the returned path list or
the raised error, the final `/tmp/output` contents, the action trace, and the
process state afterwards. -/
structure RunResult where
  outcome : Except PredictError (List String)
  fs : FS
  events : List Event
  state : PState

/-- Line 143/159: `span_arrangement='stride1' if (span_score == 'prod-stride1')
else 'nonoverlap'`. -/
def spanArrangementOf (span_score : String) : String :=
  if span_score = "prod-stride1" then "stride1" else "nonoverlap"

/-- The generation parameters built from the request, identical in both
branches (lines 137-143 and 153-159). -/
def genParamsOf (req : Request) : GenParams :=
  { duration := req.duration
    temperature := req.temperature
    top_p := req.top_p
    max_cfg_coef := req.max_cfg
    min_cfg_coef := req.min_cfg
    decoding_steps := [req.decoding_steps_stage_1, req.decoding_steps_stage_2,
      req.decoding_steps_stage_3, req.decoding_steps_stage_4]
    span_arrangement := spanArrangementOf req.span_score }

/-- Line 123: `continuation_start = 0 if not continuation_start else
continuation_start` (Python `not` on an int tests for zero). -/
def effectiveStart (cs : ℤ) : ℤ := if cs = 0 then 0 else cs

/-- Lines 124-126: the end time after the default,
`input_audio.shape[2] / sr` when `continuation_end` is `None` or `-1`. -/
def effectiveEnd (clip : AudioClip) (ce : Option ℤ) : ℚ :=
  match ce with
  | none => (clip.samples.length : ℚ) / (clip.sr : ℚ)
  | some e => if e = -1 then (clip.samples.length : ℚ) / (clip.sr : ℚ) else (e : ℚ)

/-- The condition of line 124, `continuation_end is None or continuation_end == -1`. -/
def usesDefaultEnd (ce : Option ℤ) : Bool :=
  match ce with
  | none => true
  | some e => decide (e = -1)

/-! ### Binary64 float semantics

The defaulted end time `input_audio.shape[2] / sr` (line 125) and the slice
bound `int(sr * continuation_end)` (line 133) are computed by Python in IEEE
754 binary64.  The rounding is observable — `int(16000 * (1001 / 16000))`
is `1000` — so these two operations are modelled bit-exactly.  A finite
nonnegative double is a dyadic rational `mantissa * 2 ^ exponent`; division
and int-by-float multiplication are correctly rounded (round to nearest, ties
to even), and the quantities involved (sample counts and rates of loadable
clips) stay far inside the normal range, so overflow and subnormals cannot
arise. -/

/-- Binary logarithm by structural recursion on a fuel bound (the first
argument), so that the kernel can evaluate it. -/
def log2Fuel : ℕ → ℕ → ℕ
  | 0, _ => 0
  | fuel + 1, n => if 2 ≤ n then log2Fuel fuel (n / 2) + 1 else 0

/-- `⌊log₂ n⌋` for positive `n`; every quantity in this development is far
below `2 ^ 256`, so 256 halvings suffice. -/
def natLog2 (n : ℕ) : ℕ := log2Fuel 256 n

/-- Whether `2 ^ k ≤ num / den`, by cross-multiplication. -/
def geTwoPow (num den : ℕ) (k : ℤ) : Bool :=
  if 0 ≤ k then den * 2 ^ k.toNat ≤ num else den ≤ num * 2 ^ (-k).toNat

/-- `⌊log₂ (num / den)⌋` for positive `num`, `den`: the true value is within
one of `⌊log₂ num⌋ - ⌊log₂ den⌋`, so test the three candidates. -/
def floorLog2 (num den : ℕ) : ℤ :=
  let g : ℤ := (natLog2 num : ℤ) - (natLog2 den : ℤ)
  if geTwoPow num den (g + 1) then g + 1
  else if geTwoPow num den g then g
  else g - 1

/-- A nonnegative finite binary64 value, exactly `mantissa * 2 ^ exponent`. -/
structure F64 where
  mantissa : ℕ
  exponent : ℤ
deriving DecidableEq, Repr

/-- The positive rational `num / den` rounded to the nearest binary64 value,
ties to even: the exponent placing the quotient in `[2 ^ 52, 2 ^ 53)`, then
integer rounding of the scaled quotient. -/
def roundF64 (num den : ℕ) : F64 :=
  if num = 0 then ⟨0, 0⟩ else
  let e : ℤ := floorLog2 num den - 52
  let n : ℕ := if 0 ≤ e then num else num * 2 ^ (-e).toNat
  let d : ℕ := if 0 ≤ e then den * 2 ^ e.toNat else den
  let q : ℕ := n / d
  let r : ℕ := n % d
  let m : ℕ := if d < 2 * r then q + 1 else if 2 * r < d then q else q + q % 2
  ⟨m, e⟩

/-- Python `a / b` on nonnegative ints: correctly rounded binary64 division. -/
def f64Div (a b : ℕ) : F64 := roundF64 a b

/-- Python `k * x` for an int `k` (below `2 ^ 53`, hence exactly convertible)
and a float `x`: correctly rounded binary64 product. -/
def f64Mul (k : ℕ) (x : F64) : F64 :=
  if 0 ≤ x.exponent then roundF64 (k * x.mantissa * 2 ^ x.exponent.toNat) 1
  else roundF64 (k * x.mantissa) (2 ^ (-x.exponent).toNat)

/-- Python `int()` of a nonnegative float: truncation. -/
def f64ToInt (x : F64) : ℕ :=
  if 0 ≤ x.exponent then x.mantissa * 2 ^ x.exponent.toNat
  else x.mantissa / 2 ^ (-x.exponent).toNat

/-- The slice end bound of line 133 when the end was defaulted at line 125:
`int(sr * (input_audio.shape[2] / sr))` under binary64 semantics, for a clip
of `n` samples at rate `sr`. -/
def defaultEndSliceBound (n sr : ℕ) : ℕ := f64ToInt (f64Mul sr (f64Div n sr))

/-- Lines 132-134 in the defaulted-end case (`continuation_end` `None` or
`-1`): `input_audio[..., int(sr * continuation_start) : int(sr *
continuation_end)]`, where the start bound is exact (`int * int`) and the end
bound is the binary64 computation of `defaultEndSliceBound`. -/
def input_audio_wavform (clip : AudioClip) (cs : ℤ) : List ℚ :=
  pySlice clip.samples (clip.sr * effectiveStart cs)
    ((defaultEndSliceBound clip.samples.length clip.sr.toNat : ℕ) : ℤ)

/-- Output file written for index `idx`: `audio_write` on the stem
`/tmp/output/{idx}` with the default wav format. -/
def outPath (idx : ℕ) : String := "/tmp/output/" ++ toString idx ++ ".wav"

/-- The write loop of lines 165-166: `for idx, one_wav in enumerate(wav):
audio_write(f'/tmp/output/{idx}', one_wav, ...)`, starting at index `i`. -/
def writeLoop (i : ℕ) : List (List ℚ) → List (String × List ℚ)
  | [] => []
  | w :: ws => (outPath i, w) :: writeLoop (i + 1) ws

/-- The body of `Predictor.predict` (lines 113-172), parameterised by the
external library's generation function `genOne` (the waveform `generate`
returns for one description under the set parameters).

Control flow traced from the source:
line 115 builds `descriptions`, line 117 reloads the model unconditionally,
lines 119-150 are the continuation branch — whose line 144 looks up
`generate_continuation` on the string parameter `model`, raising
`AttributeError` — lines 152-160 the plain-generation branch, line 163 wipes
`/tmp/output`, lines 165-166 write one file per generated waveform and lines
168-172 return the path list. -/
def predictBody (genOne : GenParams → String → List ℚ)
    (st : PState) (req : Request) (fs0 : FS) : RunResult :=
  let descriptions := List.replicate req.variations.toNat req.prompt
  let st1 : PState := { loadedModel := req.model }
  let ev0 : List Event := [Event.getPretrained req.model]
  match req.continuation, req.input_audio with
  | true, some clip =>
      let cs := effectiveStart req.continuation_start
      let ce := effectiveEnd clip req.continuation_end
      if (cs : ℚ) > ce then
        { outcome := Except.error (PredictError.valueError
            "`continuation_start` must be less than or equal to `continuation_end`")
          fs := fs0
          events := ev0
          state := st1 }
      else
        let params := genParamsOf req
        { outcome := Except.error (PredictError.attributeError
            "str object has no attribute generate_continuation")
          fs := fs0
          events := ev0 ++ [Event.setGenerationParams params]
          state := st1 }
  | _, _ =>
      let params := genParamsOf req
      let wav := descriptions.map (genOne params)
      let written : FS := writeLoop 0 wav
      let outputPaths := (List.range req.variations.toNat).map outPath
      { outcome := Except.ok outputPaths
        fs := written
        events := ev0 ++ [Event.setGenerationParams params, Event.generate descriptions,
          Event.rmOutputDir] ++ written.map (fun f => Event.audioWrite f.1 f.2)
        state := st1 }

/-- The six checkpoint choices of the `model` input (lines 65-71). -/
def modelChoices : List String :=
  ["facebook/magnet-small-10secs", "facebook/magnet-medium-10secs",
   "facebook/magnet-small-30secs", "facebook/magnet-medium-30secs",
   "facebook/audio-magnet-small", "facebook/audio-magnet-medium"]

/-- The two `span_score` choices (line 79). -/
def spanScoreChoices : List String := ["max-nonoverlap", "prod-stride1"]

/-- The cog `Input` validation constraints declared on the signature
(lines 35-112): `continuation_start ≥ 0`, `continuation_end ≥ 0` when
supplied, `1 ≤ variations ≤ 4`, `0 ≤ top_p ≤ 1`, and the enumerated choices.
A request failing them is rejected before `predict` runs. -/
def validRequest (req : Request) : Bool :=
  decide (0 ≤ req.continuation_start) &&
  (match req.continuation_end with
   | none => true
   | some e => decide (0 ≤ e)) &&
  decide (1 ≤ req.variations) && decide (req.variations ≤ 4) &&
  decide (0 ≤ req.top_p) && decide (req.top_p ≤ 1) &&
  modelChoices.contains req.model &&
  spanScoreChoices.contains req.span_score

/-! ## Concrete fixtures used to evaluate runs -/

/-- A trivial stand-in for the external generation function: one constant
sample per description. -/
def genOne0 : GenParams → String → List ℚ := fun _ _ => [1]

/-- A concrete process state: the checkpoint `setup` loads. -/
def st0 : PState := { loadedModel := "facebook/audio-magnet-medium" }

/-- A process state already holding the checkpoint `baseReq` names. -/
def stSame : PState := { loadedModel := "facebook/magnet-small-10secs" }

/-- A concrete four-sample reference clip at sample rate 2 (two seconds). -/
def clip0 : AudioClip := { samples := [0, 1/2, 1, 3/2], sr := 2 }

/-- A concrete request carrying the source's default parameter values. -/
def baseReq : Request :=
  { prompt := "80s electronic track with melodic synthesizers, catchy beat and groovy bass"
    input_audio := none
    duration := 8
    continuation := false
    continuation_start := 0
    continuation_end := none
    model := "facebook/magnet-small-10secs"
    variations := 3
    span_score := "prod-stride1"
    temperature := 3
    top_p := 1
    max_cfg := 10
    min_cfg := 1
    decoding_steps_stage_1 := 20
    decoding_steps_stage_2 := 10
    decoding_steps_stage_3 := 10
    decoding_steps_stage_4 := 10 }

/-- `baseReq` in continuation mode with `clip0` supplied; its window is the
default full clip (start 0, end `None` → 2 seconds). -/
def contReq : Request := { baseReq with continuation := true, input_audio := some clip0 }

/-- A continuation request whose start (5) exceeds its defaulted end (2). -/
def contReqBad : Request :=
  { baseReq with continuation := true, input_audio := some clip0, continuation_start := 5 }

/-- A 1001-sample clip at 16 kHz: `1001 / 16000` is not exactly representable
in binary64 and `16000 * (1001 / 16000)` rounds to `1000.9999999999999`. -/
def clip1001 : AudioClip := { samples := List.replicate 1001 0, sr := 16000 }

/-! ## Helper lemmas -/

theorem writeLoop_length (i : ℕ) (ws : List (List ℚ)) :
    (writeLoop i ws).length = ws.length := by
  induction ws generalizing i with
  | nil => rfl
  | cons w ws ih => simp [writeLoop, ih]

theorem snd_mem_of_mem_writeLoop {i : ℕ} {ws : List (List ℚ)} {x : String × List ℚ}
    (hx : x ∈ writeLoop i ws) : x.2 ∈ ws := by
  induction ws generalizing i with
  | nil => simp [writeLoop] at hx
  | cons w ws ih =>
    rcases (by simpa [writeLoop] using hx : x = (outPath i, w) ∨ x ∈ writeLoop (i + 1) ws) with
      h | h
    · subst h; simp
    · exact List.mem_cons_of_mem _ (ih h)

/-- Case split on which branch of line 119 a request takes. -/
theorem req_branch_cases (req : Request) :
    (req.continuation = false ∨ req.input_audio = none) ∨
    (req.continuation = true ∧ ∃ clip, req.input_audio = some clip) := by
  cases hc : req.continuation
  · exact Or.inl (Or.inl rfl)
  · cases ha : req.input_audio with
    | none => exact Or.inl (Or.inr rfl)
    | some c => exact Or.inr ⟨rfl, c, rfl⟩

/-- Shape of a run through the plain-generation branch (lines 152-172). -/
theorem predictBody_default (genOne : GenParams → String → List ℚ) (st : PState)
    (req : Request) (fs0 : FS)
    (h : req.continuation = false ∨ req.input_audio = none) :
    predictBody genOne st req fs0 =
      { outcome := Except.ok ((List.range req.variations.toNat).map outPath)
        fs := writeLoop 0
          (List.replicate req.variations.toNat (genOne (genParamsOf req) req.prompt))
        events := [Event.getPretrained req.model,
          Event.setGenerationParams (genParamsOf req),
          Event.generate (List.replicate req.variations.toNat req.prompt),
          Event.rmOutputDir] ++
          (writeLoop 0
            (List.replicate req.variations.toNat (genOne (genParamsOf req) req.prompt))).map
            (fun f => Event.audioWrite f.1 f.2)
        state := { loadedModel := req.model } } := by
  rcases h with h | h
  · cases ha : req.input_audio
    · simp [predictBody, h, ha, List.map_replicate]
    · simp [predictBody, h, ha, List.map_replicate]
  · cases hc : req.continuation
    · simp [predictBody, h, hc, List.map_replicate]
    · simp [predictBody, h, hc, List.map_replicate]

/-- Shape of a run that hits the `ValueError` of lines 127-130. -/
theorem predictBody_cont_invalid (genOne : GenParams → String → List ℚ) (st : PState)
    (req : Request) (fs0 : FS) (clip : AudioClip)
    (hc : req.continuation = true) (ha : req.input_audio = some clip)
    (hw : effectiveEnd clip req.continuation_end < (effectiveStart req.continuation_start : ℚ)) :
    predictBody genOne st req fs0 =
      { outcome := Except.error (PredictError.valueError
          "`continuation_start` must be less than or equal to `continuation_end`")
        fs := fs0
        events := [Event.getPretrained req.model]
        state := { loadedModel := req.model } } := by
  simp [predictBody, hc, ha, hw]

/-- Shape of a run through the continuation branch with a valid window: line
144 looks up `generate_continuation` on the string `model` and raises
`AttributeError` after `set_generation_params`, before any write. -/
theorem predictBody_cont_valid (genOne : GenParams → String → List ℚ) (st : PState)
    (req : Request) (fs0 : FS) (clip : AudioClip)
    (hc : req.continuation = true) (ha : req.input_audio = some clip)
    (hw : (effectiveStart req.continuation_start : ℚ) ≤ effectiveEnd clip req.continuation_end) :
    predictBody genOne st req fs0 =
      { outcome := Except.error (PredictError.attributeError
          "str object has no attribute generate_continuation")
        fs := fs0
        events := [Event.getPretrained req.model,
          Event.setGenerationParams (genParamsOf req)]
        state := { loadedModel := req.model } } := by
  have hw' : ¬ (effectiveEnd clip req.continuation_end <
      (effectiveStart req.continuation_start : ℚ)) := not_lt.mpr hw
  simp [predictBody, hc, ha, hw']

/-! ## Claim theorems -/

/-- C1 counterexample: in continuation mode the operation does not produce one
waveform per requested variation — on the concrete request `contReq`
(continuation with `clip0`, 3 variations requested) the run raises
`AttributeError` and writes no waveform at all. -/
theorem continuation_no_waveform_per_variation_cex :
    contReq.continuation = true ∧ contReq.input_audio = some clip0 ∧
    contReq.variations = 3 ∧
    (predictBody genOne0 st0 contReq []).outcome = Except.error
      (PredictError.attributeError "str object has no attribute generate_continuation") ∧
    (predictBody genOne0 st0 contReq []).fs = ([] : FS) := by
  have hw : (effectiveStart contReq.continuation_start : ℚ) ≤
      effectiveEnd clip0 contReq.continuation_end := by
    norm_num [effectiveEnd, effectiveStart, clip0, contReq, baseReq]
  rw [predictBody_cont_valid genOne0 st0 contReq [] clip0 rfl rfl hw]
  exact ⟨rfl, rfl, rfl, rfl, rfl⟩

/-- C1 (amended): every request that is not in continuation mode (continuation
flag unset, or no reference clip supplied) produces exactly `variations`
waveforms, each generated from the same prompt text; continuation-mode
requests produce none (the run fails, see the counterexample). -/
theorem noncontinuation_one_waveform_per_variation
    (genOne : GenParams → String → List ℚ) (st : PState) (req : Request) (fs0 : FS)
    (h : req.continuation = false ∨ req.input_audio = none) :
    (predictBody genOne st req fs0).fs.length = req.variations.toNat ∧
    ∀ w ∈ (predictBody genOne st req fs0).fs,
      w.2 = genOne (genParamsOf req) req.prompt := by
  rw [predictBody_default genOne st req fs0 h]
  refine ⟨by simp [writeLoop_length], ?_⟩
  intro w hw
  exact List.eq_of_mem_replicate (snd_mem_of_mem_writeLoop hw)

/-- C1 witness: the default request (3 variations, no continuation) yields 3
written waveforms, each generated from its prompt. -/
theorem noncontinuation_one_waveform_per_variation_witness :
    (predictBody genOne0 st0 baseReq []).fs.length = baseReq.variations.toNat ∧
    ∀ w ∈ (predictBody genOne0 st0 baseReq []).fs,
      w.2 = genOne0 (genParamsOf baseReq) baseReq.prompt :=
  noncontinuation_one_waveform_per_variation genOne0 st0 baseReq [] (Or.inl rfl)

/-- C3: a continuation-mode request whose effective window has start strictly
greater than end (after the end default) fails with the `ValueError`, with the
output directory untouched and nothing beyond the model load performed — no
generation parameters set, no generation, no write. -/
theorem continuation_invalid_window_aborts
    (genOne : GenParams → String → List ℚ) (st : PState) (req : Request)
    (fs0 : FS) (clip : AudioClip)
    (hc : req.continuation = true) (ha : req.input_audio = some clip)
    (hw : (effectiveStart req.continuation_start : ℚ) >
      effectiveEnd clip req.continuation_end) :
    (predictBody genOne st req fs0).outcome = Except.error (PredictError.valueError
      "`continuation_start` must be less than or equal to `continuation_end`") ∧
    (predictBody genOne st req fs0).fs = fs0 ∧
    (predictBody genOne st req fs0).events = [Event.getPretrained req.model] := by
  rw [predictBody_cont_invalid genOne st req fs0 clip hc ha hw]
  exact ⟨rfl, rfl, rfl⟩

/-- C3 witness: the concrete request `contReqBad` (start 5, defaulted end 2)
aborts with the `ValueError` before any inference work. -/
theorem continuation_invalid_window_aborts_witness :
    (predictBody genOne0 st0 contReqBad []).outcome = Except.error (PredictError.valueError
      "`continuation_start` must be less than or equal to `continuation_end`") ∧
    (predictBody genOne0 st0 contReqBad []).fs = ([] : FS) ∧
    (predictBody genOne0 st0 contReqBad []).events =
      [Event.getPretrained contReqBad.model] :=
  continuation_invalid_window_aborts genOne0 st0 contReqBad [] clip0 rfl rfl
    (by norm_num [effectiveEnd, effectiveStart, clip0, contReqBad, baseReq])

/-- C9: a continuation-mode request with a valid window reaches line 144,
which looks up `generate_continuation` on the checkpoint-name string `model`
instead of `self.model`, so the run always raises `AttributeError` before any
waveform is produced or written. -/
theorem continuation_generates_on_string_model
    (genOne : GenParams → String → List ℚ) (st : PState) (req : Request)
    (fs0 : FS) (clip : AudioClip)
    (hc : req.continuation = true) (ha : req.input_audio = some clip)
    (hw : (effectiveStart req.continuation_start : ℚ) ≤
      effectiveEnd clip req.continuation_end) :
    (predictBody genOne st req fs0).outcome = Except.error (PredictError.attributeError
      "str object has no attribute generate_continuation") ∧
    (predictBody genOne st req fs0).fs = fs0 ∧
    ∀ p w, Event.audioWrite p w ∉ (predictBody genOne st req fs0).events := by
  rw [predictBody_cont_valid genOne st req fs0 clip hc ha hw]
  refine ⟨rfl, rfl, ?_⟩
  intro p w
  simp

/-- C9 witness: the concrete continuation request `contReq` (start 0, end
defaulted to the clip length) raises the `AttributeError` and writes nothing. -/
theorem continuation_generates_on_string_model_witness :
    (predictBody genOne0 st0 contReq []).outcome = Except.error (PredictError.attributeError
      "str object has no attribute generate_continuation") ∧
    (predictBody genOne0 st0 contReq []).fs = ([] : FS) ∧
    ∀ p w, Event.audioWrite p w ∉ (predictBody genOne0 st0 contReq []).events :=
  continuation_generates_on_string_model genOne0 st0 contReq [] clip0 rfl rfl
    (by norm_num [effectiveEnd, effectiveStart, clip0, contReq, baseReq])

/-- C2: whenever a valid request's run returns a path list, that list holds
exactly `variations` paths, in variation order: position `idx` holds
`/tmp/output/{idx}.wav`. -/
theorem predict_paths_in_variation_order
    (genOne : GenParams → String → List ℚ) (st : PState) (req : Request)
    (fs0 : FS) (paths : List String)
    (hv : validRequest req = true)
    (hok : (predictBody genOne st req fs0).outcome = Except.ok paths) :
    (paths.length : ℤ) = req.variations ∧
    paths = (List.range req.variations.toNat).map outPath := by
  have hpaths : paths = (List.range req.variations.toNat).map outPath := by
    rcases req_branch_cases req with h | ⟨hc, clip, ha⟩
    · rw [predictBody_default genOne st req fs0 h] at hok
      simpa using hok.symm
    · rcases lt_or_le (effectiveEnd clip req.continuation_end)
        ((effectiveStart req.continuation_start : ℚ)) with hw | hw
      · rw [predictBody_cont_invalid genOne st req fs0 clip hc ha hw] at hok
        simp at hok
      · rw [predictBody_cont_valid genOne st req fs0 clip hc ha hw] at hok
        simp at hok
  refine ⟨?_, hpaths⟩
  have hvar : (1 : ℤ) ≤ req.variations := by
    unfold validRequest at hv
    simp only [Bool.and_eq_true, decide_eq_true_eq] at hv
    exact hv.1.1.1.1.1.2
  rw [hpaths]
  simp only [List.length_map, List.length_range]
  omega

/-- C2 witness: the default request returns exactly its 3 paths in order. -/
theorem predict_paths_in_variation_order_witness :
    ((([outPath 0, outPath 1, outPath 2] : List String).length : ℤ) = baseReq.variations) ∧
    ([outPath 0, outPath 1, outPath 2] : List String) =
      (List.range baseReq.variations.toNat).map outPath :=
  predict_paths_in_variation_order genOne0 st0 baseReq [] [outPath 0, outPath 1, outPath 2]
    (by decide) rfl

/-- Python slicing `l[a : len(l)]` with `0 ≤ a` drops the first `a` elements. -/
theorem pySlice_nonneg_to_length {α : Type} (l : List α) (a : ℤ) (ha : 0 ≤ a) :
    pySlice l a (l.length : ℤ) = l.drop a.toNat := by
  simp only [pySlice]
  rw [if_neg (not_lt.mpr ha), if_neg (not_lt.mpr (Int.natCast_nonneg l.length)), min_self]
  rcases le_total a (l.length : ℤ) with h | h
  · rw [min_eq_left h]
    apply List.take_of_length_le
    rw [List.length_drop]
    omega
  · rw [min_eq_right h]
    have h1 : ((l.length : ℤ)).toNat = l.length := Int.toNat_natCast l.length
    have h2 : l.length ≤ a.toNat := by omega
    rw [h1, List.drop_length, List.drop_eq_nil_of_le h2]
    simp

set_option maxRecDepth 8192 in
/-- C4 counterexample: a 1001-sample clip at 16 kHz, start 0, end defaulted.
Binary64 rounding makes the slice bound `int(16000 * (1001 / 16000))` equal
1000, so the conditioning prefix is not the slice to the end of the clip —
the final sample is dropped. -/
theorem default_end_drops_last_sample_cex :
    clip1001.samples.length = 1001 ∧
    defaultEndSliceBound 1001 16000 = 1000 ∧
    (input_audio_wavform clip1001 0).length = 1000 ∧
    input_audio_wavform clip1001 0 ≠
      clip1001.samples.drop ((clip1001.sr * effectiveStart 0).toNat) := by decide

/-- C4 (amended): with end `None` or the sentinel `-1`, the end defaults to
the binary64 quotient of sample count by sample rate, and the conditioning
prefix is the slice of the clip from the requested start to
`int(sr * (shape / sr))` computed in binary64 — which is the full remaining
clip exactly when that computation round-trips to the sample count; when it
rounds below, trailing samples are dropped (see the counterexample). -/
theorem default_end_round_trip_full_clip (clip : AudioClip) (cs : ℤ)
    (hsr : 0 < clip.sr) (hcs : 0 ≤ cs)
    (hround : defaultEndSliceBound clip.samples.length clip.sr.toNat =
      clip.samples.length) :
    input_audio_wavform clip cs = clip.samples.drop (clip.sr * cs).toNat := by
  unfold input_audio_wavform
  have hstart : effectiveStart cs = cs := by
    unfold effectiveStart
    split <;> omega
  rw [hstart, hround]
  exact pySlice_nonneg_to_length clip.samples _ (mul_nonneg hsr.le hcs)

/-- C4 witness: on `clip0` (4 samples at rate 2, so `4 / 2` and `2 * 2.0` are
exact in binary64) with start 1, the prefix is the clip from sample 2 on. -/
theorem default_end_round_trip_full_clip_witness :
    input_audio_wavform clip0 1 = clip0.samples.drop (clip0.sr * 1).toNat :=
  default_end_round_trip_full_clip clip0 1 (by decide) (by decide) (by decide)

/-- C5 counterexample: the span-arrangement strategy is not passed through
verbatim — the default request carries `span_score = "prod-stride1"` but the
generation configuration it sets holds `span_arrangement = "stride1"`. -/
theorem span_score_renamed_cex :
    baseReq.span_score = "prod-stride1" ∧
    Event.setGenerationParams (genParamsOf baseReq) ∈
      (predictBody genOne0 st0 baseReq []).events ∧
    (genParamsOf baseReq).span_arrangement ≠ baseReq.span_score := by
  refine ⟨rfl, ?_, by decide⟩
  rw [predictBody_default genOne0 st0 baseReq [] (Or.inl rfl)]
  simp

/-- C5 (amended): temperature, top-p, the min and max classifier-free-guidance
coefficients and the four per-stage decoding step counts reach the generation
configuration unmodified; the span-arrangement strategy is translated
deterministically (`prod-stride1` to `stride1`, anything else to
`nonoverlap`); and every `set_generation_params` call of a run carries exactly
these values. -/
theorem sampling_params_passthrough (req : Request) :
    (genParamsOf req).temperature = req.temperature ∧
    (genParamsOf req).top_p = req.top_p ∧
    (genParamsOf req).max_cfg_coef = req.max_cfg ∧
    (genParamsOf req).min_cfg_coef = req.min_cfg ∧
    (genParamsOf req).decoding_steps = [req.decoding_steps_stage_1,
      req.decoding_steps_stage_2, req.decoding_steps_stage_3,
      req.decoding_steps_stage_4] ∧
    (genParamsOf req).span_arrangement =
      (if req.span_score = "prod-stride1" then "stride1" else "nonoverlap") ∧
    ∀ (genOne : GenParams → String → List ℚ) (st : PState) (fs0 : FS) (p : GenParams),
      Event.setGenerationParams p ∈ (predictBody genOne st req fs0).events →
      p = genParamsOf req := by
  refine ⟨rfl, rfl, rfl, rfl, rfl, rfl, ?_⟩
  intro genOne st fs0 p hmem
  rcases req_branch_cases req with h | ⟨hc, clip, ha⟩
  · rw [predictBody_default genOne st req fs0 h] at hmem
    simpa using hmem
  · rcases lt_or_le (effectiveEnd clip req.continuation_end)
      ((effectiveStart req.continuation_start : ℚ)) with hw | hw
    · rw [predictBody_cont_invalid genOne st req fs0 clip hc ha hw] at hmem
      simp at hmem
    · rw [predictBody_cont_valid genOne st req fs0 clip hc ha hw] at hmem
      simpa using hmem

/-- C6 (code bug): when continuation is not requested, the supplied reference
clip is ignored entirely — a run with the clip is identical, in every
observable respect, to the same run without it.  Line 160 calls
`self.model.generate(descriptions)`, which never reads `input_audio`,
although the `input_audio` docstring promises the output will mimic the
clip's melody. -/
theorem melody_clip_ignored
    (genOne : GenParams → String → List ℚ) (st : PState) (req : Request)
    (clip : AudioClip) (fs0 : FS)
    (h : req.continuation = false) :
    predictBody genOne st { req with input_audio := some clip } fs0 =
    predictBody genOne st { req with input_audio := none } fs0 := by
  rw [predictBody_default genOne st { req with input_audio := some clip } fs0 (Or.inl h),
    predictBody_default genOne st { req with input_audio := none } fs0 (Or.inl h)]
  rfl

/-- C6 witness: supplying `clip0` to the default (melody-mode) request changes
nothing about the run. -/
theorem melody_clip_ignored_witness :
    predictBody genOne0 st0 { baseReq with input_audio := some clip0 } [] =
    predictBody genOne0 st0 { baseReq with input_audio := none } [] :=
  melody_clip_ignored genOne0 st0 baseReq clip0 [] rfl

/-- C7 counterexample: line 117 reloads unconditionally, so even when the
process state already holds exactly the checkpoint the request names, the run
still performs a `get_pretrained` load — the loaded model is not reused. -/
theorem same_checkpoint_still_reloaded_cex :
    stSame.loadedModel = baseReq.model ∧
    Event.getPretrained baseReq.model ∈
      (predictBody genOne0 stSame baseReq []).events := by
  refine ⟨rfl, ?_⟩
  rw [predictBody_default genOne0 stSame baseReq [] (Or.inl rfl)]
  simp

/-- C7 (amended): the loaded model is the only process-lifetime state, and the
checkpoint named by the request is loaded on every call — whether or not it
differs from the currently loaded one — as the first action of the run, so a
call naming a different checkpoint does load it before generating. -/
theorem model_loaded_every_call
    (genOne : GenParams → String → List ℚ) (st : PState) (req : Request) (fs0 : FS) :
    (predictBody genOne st req fs0).events.head? =
      some (Event.getPretrained req.model) ∧
    (predictBody genOne st req fs0).state = { loadedModel := req.model } := by
  rcases req_branch_cases req with h | ⟨hc, clip, ha⟩
  · rw [predictBody_default genOne st req fs0 h]
    exact ⟨rfl, rfl⟩
  · rcases lt_or_le (effectiveEnd clip req.continuation_end)
      ((effectiveStart req.continuation_start : ℚ)) with hw | hw
    · rw [predictBody_cont_invalid genOne st req fs0 clip hc ha hw]
      exact ⟨rfl, rfl⟩
    · rw [predictBody_cont_valid genOne st req fs0 clip hc ha hw]
      exact ⟨rfl, rfl⟩

/-- C8: two runs of the same request that differ only in the prior contents of
the output directory have the same results — the same returned paths or
error, and the same action trace, including the directory wipe and every
file write. -/
theorem output_dir_no_influence
    (genOne : GenParams → String → List ℚ) (st : PState) (req : Request)
    (fs0 fs1 : FS) :
    (predictBody genOne st req fs0).outcome = (predictBody genOne st req fs1).outcome ∧
    (predictBody genOne st req fs0).events = (predictBody genOne st req fs1).events := by
  rcases req_branch_cases req with h | ⟨hc, clip, ha⟩
  · rw [predictBody_default genOne st req fs0 h, predictBody_default genOne st req fs1 h]
    exact ⟨rfl, rfl⟩
  · rcases lt_or_le (effectiveEnd clip req.continuation_end)
      ((effectiveStart req.continuation_start : ℚ)) with hw | hw
    · rw [predictBody_cont_invalid genOne st req fs0 clip hc ha hw,
        predictBody_cont_invalid genOne st req fs1 clip hc ha hw]
      exact ⟨rfl, rfl⟩
    · rw [predictBody_cont_valid genOne st req fs0 clip hc ha hw,
        predictBody_cont_valid genOne st req fs1 clip hc ha hw]
      exact ⟨rfl, rfl⟩

/-- C10: the `ge=0` validation constraint on `continuation_end` makes the
documented sentinel `-1` unreachable: no valid request carries `-1`, and among
valid requests the full-clip-length default of line 124 fires exactly when
`continuation_end` is unspecified (`None`). -/
theorem sentinel_end_unreachable (req : Request)
    (hv : validRequest req = true) :
    req.continuation_end ≠ some (-1) ∧
    (usesDefaultEnd req.continuation_end = true ↔ req.continuation_end = none) := by
  unfold validRequest at hv
  simp only [Bool.and_eq_true, decide_eq_true_eq] at hv
  have hend := hv.1.1.1.1.1.1.2
  cases hce : req.continuation_end with
  | none => simp [usesDefaultEnd]
  | some e =>
    rw [hce] at hend
    have he : 0 ≤ e := by simpa using hend
    constructor
    · intro hcontra
      rw [Option.some_inj] at hcontra
      omega
    · simp only [usesDefaultEnd, decide_eq_true_eq]
      constructor
      · intro hcontra
        omega
      · intro hcontra
        exact absurd hcontra (by simp)

/-- C10 witness: the default request is valid, carries no sentinel, and does
take the default-end branch because its end time is `None`. -/
theorem sentinel_end_unreachable_witness :
    baseReq.continuation_end ≠ some (-1) ∧
    (usesDefaultEnd baseReq.continuation_end = true ↔ baseReq.continuation_end = none) :=
  sentinel_end_unreachable baseReq (by decide)

end Audiocraft
